import Mathlib

/-!
Verification development for the tt_riingd daemon (Rust sources under src/).

The Rust code is shallowly embedded: `f32` arithmetic is modelled by exact
rational arithmetic over `ℚ`, machine integers (`u8`, `u16`, `usize`) by `ℕ`
with explicit wrapping/saturation where the source relies on it, `HashMap`s by
association lists or explicit functions, and fallible functions by
`Except String`/`Option`.  Device and filesystem I/O is outside the embedding;
the pure computations that precede and follow each I/O call are modelled
exactly as written in the source.
-/

namespace TtRiingd

/-! ## Fan curves (src/src/fan_curve.rs) -/

/-- The `FanCurve` enum of src/src/fan_curve.rs: `Constant(u8)`,
`StepCurve { temps: Vec<f32>, speeds: Vec<u8> }`,
`BezierCurve { points: Vec<Point> }` (a `Point` is an `(x, y)` pair of `f32`). -/
inductive FanCurve where
  | Constant (speed : ℕ)
  | StepCurve (temps : List ℚ) (speeds : List ℕ)
  | BezierCurve (points : List (ℚ × ℚ))
deriving DecidableEq

/-- The `PartialEq for FanCurve` impl of src/src/fan_curve.rs: `eq` is a
`matches!` on the pair of variants only, ignoring all payloads. -/
def fanCurveEq : FanCurve → FanCurve → Bool
  | .Constant _, .Constant _ => true
  | .BezierCurve _, .BezierCurve _ => true
  | .StepCurve _ _, .StepCurve _ _ => true
  | _, _ => false

/-- Variant discriminant of a `FanCurve` (the value `std::mem::discriminant`
would compare); used to state what the kind-only equality decides. -/
inductive CurveKind where
  | constantKind
  | stepKind
  | bezierKind
deriving DecidableEq

/-- Discriminant of a `FanCurve` value. -/
def FanCurve.kind : FanCurve → CurveKind
  | .Constant _ => .constantKind
  | .StepCurve _ _ => .stepKind
  | .BezierCurve _ => .bezierKind

/-! ## Step-curve evaluation (src/src/drivers/tt_riing_quad/controller.rs,
`Fan::compute_speed`, `StepCurve` arm) -/

/-- Rust `f32::round`: round to the nearest integer, ties away from zero. -/
def roundHalfAway (q : ℚ) : ℤ := if 0 ≤ q then ⌊q + 1/2⌋ else ⌈q - 1/2⌉

/-- Rust `.clamp(0.0, 100.0) as u8` applied to an integer-valued float. -/
def clampCastU8 (z : ℤ) : ℕ := (min 100 (max 0 z)).toNat

/-- Body of the per-interval interpolation in `Fan::compute_speed`:
`ratio = (temp - t0) / (t1 - t0); speed = s0*(1-ratio) + s1*ratio;
speed.round().clamp(0.0, 100.0) as u8`. -/
def interpSpeed (t0 t1 : ℚ) (s0 s1 : ℕ) (temp : ℚ) : ℕ :=
  clampCastU8 (roundHalfAway
    ((s0 : ℚ) * (1 - (temp - t0) / (t1 - t0)) + (s1 : ℚ) * ((temp - t0) / (t1 - t0))))

/-- The `StepCurve` arm of `Fan::compute_speed`:
`temps.windows(2).zip(speeds.windows(2)).find_map(..)` — scan consecutive
interval pairs left to right, returning the interpolation over the first
interval `t0..=t1` that contains `temp`, and `None` when no zipped window
pair contains it. -/
def stepCompute : List ℚ → List ℕ → ℚ → Option ℕ
  | t0 :: t1 :: ts, s0 :: s1 :: ss, temp =>
    if t0 ≤ temp ∧ temp ≤ t1 then some (interpSpeed t0 t1 s0 s1 temp)
    else stepCompute (t1 :: ts) (s1 :: ss) temp
  | _, _, _ => none

/-- Transcription of the specification wording for the step curve: the index of
the first interval `[tmps[i], tmps[i+1]]` that contains `temp`. -/
def specFirstIdx (temps : List ℚ) (temp : ℚ) : Option ℕ :=
  (List.range (temps.length - 1)).find?
    (fun i => decide (temps.getD i 0 ≤ temp ∧ temp ≤ temps.getD (i + 1) 0))

/-- Transcription of the specification wording for the step curve: linearly
interpolate `spds[i]..spds[i+1]` over the first containing interval, round
half-away-from-zero, clamp to `0..=100`; no containing interval means failure. -/
def specStepCompute (temps : List ℚ) (speeds : List ℕ) (temp : ℚ) : Option ℕ :=
  (specFirstIdx temps temp).map
    (fun i => interpSpeed (temps.getD i 0) (temps.getD (i + 1) 0)
      (speeds.getD i 0) (speeds.getD (i + 1) 0) temp)

/-! ## Bezier evaluation (src/src/drivers/tt_riing_quad/controller.rs,
`compute_bezier_at_t` and `get_speed_for_temp`) -/

/-- The function `compute_bezier_at_t`: the cubic Bezier point at parameter `t`
for the four control points `pts[0] .. pts[3]`. -/
def computeBezierAtT (pts : List (ℚ × ℚ)) (t : ℚ) : ℚ × ℚ :=
  let u := 1 - t
  let tt := t * t
  let uu := u * u
  let uuu := uu * u
  let ttt := tt * t
  let p0 := pts.getD 0 (0, 0)
  let p1 := pts.getD 1 (0, 0)
  let p2 := pts.getD 2 (0, 0)
  let p3 := pts.getD 3 (0, 0)
  (uuu * p0.1 + 3 * uu * t * p1.1 + 3 * u * tt * p2.1 + ttt * p3.1,
   uuu * p0.2 + 3 * uu * t * p1.2 + 3 * u * tt * p2.2 + ttt * p3.2)

/-- The bounded binary search of `get_speed_for_temp`, with explicit fuel
(`MAX_ITERATIONS = 100` in the source) and, alongside the returned `y` value,
the number of loop iterations that were executed. When the fuel runs out the
source re-evaluates the curve at the last midpoint and returns its `y`. -/
def bezierGo (pts : List (ℚ × ℚ)) (temp : ℚ) : ℕ → ℚ → ℚ → ℚ → ℚ × ℕ
  | 0, _, _, tMid => ((computeBezierAtT pts tMid).2, 0)
  | n + 1, tLow, tHigh, _ =>
    let tMid := (tLow + tHigh) * (1/2)
    let p := computeBezierAtT pts tMid
    if |p.1 - temp| < 1/1000000 then (p.2, 1)
    else if p.1 < temp then
      let r := bezierGo pts temp n tMid tHigh tMid
      (r.1, r.2 + 1)
    else
      let r := bezierGo pts temp n tLow tMid tMid
      (r.1, r.2 + 1)

/-- The function `get_speed_for_temp`: binary search over `t ∈ [0, 1]` with at
most 100 iterations, starting from `t_low = 0`, `t_high = 1`, `t_mid = 0`.
Returns the `y` value and the number of iterations executed. -/
def getSpeedForTemp (pts : List (ℚ × ℚ)) (temp : ℚ) : ℚ × ℕ :=
  bezierGo pts temp 100 0 1 0

/-- Rust `as u8` on an `f32`: saturating cast — truncate toward zero, then
clamp into `0..=255`. -/
def f32AsU8 (q : ℚ) : ℕ := min 255 ⌊q⌋.toNat

/-! ## Fan state (src/src/drivers/tt_riing_quad/controller.rs, `Fan`) -/

/-- The `Fan` struct: current speed and rpm, the active curve name, and the
name→curve map (a `HashMap` modelled as an association list with unique keys). -/
structure Fan where
  current_speed : ℕ
  current_rpm : ℕ
  active_curve : String
  curve : List (String × FanCurve)
deriving DecidableEq

/-- HashMap `get`: the value stored under key `k`, if any. -/
def lookupCurve (m : List (String × FanCurve)) (k : String) : Option FanCurve :=
  (m.find? (fun p => p.1 == k)).map (fun p => p.2)

/-- HashMap in-place update through `get_mut`: replace the value stored under
key `k` (no effect when the key is absent). -/
def updateAssoc (m : List (String × FanCurve)) (k : String) (v : FanCurve) :
    List (String × FanCurve) :=
  m.map (fun p => if p.1 == k then (p.1, v) else p)

/-- The function `Fan::compute_speed`: look up the active curve and evaluate
it. `Constant` returns the stored speed; `StepCurve` runs the window scan;
`BezierCurve` demands exactly four points and runs the bounded binary search,
casting the resulting `f32` to `u8` (saturating, with no clamp to 100). -/
def Fan.compute_speed (fan : Fan) (temp : ℚ) : Except String ℕ :=
  match lookupCurve fan.curve fan.active_curve with
  | none => .error "Curve not found"
  | some (.Constant speed) => .ok speed
  | some (.StepCurve temps speeds) =>
    match stepCompute temps speeds temp with
    | some duty => .ok duty
    | none => .error "Temperature not found in curve"
  | some (.BezierCurve points) =>
    if points.length ≠ 4 then .error "Bezier curve must have 4 points"
    else .ok (f32AsU8 (getSpeedForTemp points temp).1)

/-- The function `Fan::update_curve`: switch the active curve, failing when the
name is not in the map. -/
def Fan.update_curve (fan : Fan) (c : String) : Except String Fan :=
  match lookupCurve fan.curve c with
  | some _ => .ok { fan with active_curve := c }
  | none => .error ("Curve " ++ c ++ " not found")

/-- The function `Fan::update_curve_data`:
`self.curve.get_mut(curve).filter(|c| c == &curve_data).map(..).ok_or(anyhow!("Curve not found"))`.
The `filter` uses the kind-only `PartialEq`, and a failed filter collapses into
the same `"Curve not found"` error as an absent key. -/
def Fan.update_curve_data (fan : Fan) (name : String) (data : FanCurve) :
    Except String Fan :=
  match lookupCurve fan.curve name with
  | none => .error "Curve not found"
  | some c =>
    if fanCurveEq c data then .ok { fan with curve := updateAssoc fan.curve name data }
    else .error "Curve not found"

/-- The function `Fan::get_active_curve`: always returns the stored name. -/
def Fan.get_active_curve (fan : Fan) : Except String String := .ok fan.active_curve

/-! ## Channel operations (src/src/drivers/tt_riing_quad/ttriing_quad.rs) -/

/-- Result of a Rust call that can succeed, return an `anyhow` error, or
panic (an out-of-bounds `Vec` index or a `u8` underflow in a debug build). -/
inductive Outcome (α : Type) where
  | ok (a : α)
  | err (e : String)
  | panicked
deriving DecidableEq

/-- Rust `(channel - 1) as usize` for `channel : u8`, with release-build
wrapping subtraction (`0 - 1` wraps to `255`). -/
def sub1u8 (channel : ℕ) : ℕ := (channel + 255) % 256

/-- The method `TTRiingQuad::switch_curve`:
`fans.get_mut((channel - 1) as usize).map(|fan| fan.update_curve(curve)).ok_or(anyhow!("Fan not found"))?`. -/
def TTRiingQuad.switch_curve (fans : List Fan) (channel : ℕ) (c : String) :
    Outcome (List Fan) :=
  match fans.get? (sub1u8 channel) with
  | none => .err "Fan not found"
  | some fan =>
    match fan.update_curve c with
    | .ok fan2 => .ok (fans.set (sub1u8 channel) fan2)
    | .error e => .err e

/-- The method `TTRiingQuad::get_active_curve`:
`fans.get((channel - 1) as usize).map(|fan| fan.get_active_curve()).ok_or(anyhow!("Fans not found"))?`. -/
def TTRiingQuad.get_active_curve (fans : List Fan) (channel : ℕ) : Outcome String :=
  match fans.get? (sub1u8 channel) with
  | none => .err "Fans not found"
  | some fan =>
    match fan.get_active_curve with
    | .ok s => .ok s
    | .error e => .err e

/-- The method `TTRiingQuad::update_curve_data` (channel dispatch):
`fans.get_mut((channel - 1) as usize).map(|fan| fan.update_curve_data(curve, curve_data)).ok_or(anyhow!("Fans not found"))?`. -/
def TTRiingQuad.update_curve_data (fans : List Fan) (channel : ℕ) (name : String)
    (data : FanCurve) : Outcome (List Fan) :=
  match fans.get? (sub1u8 channel) with
  | none => .err "Fans not found"
  | some fan =>
    match fan.update_curve_data name data with
    | .ok fan2 => .ok (fans.set (sub1u8 channel) fan2)
    | .error e => .err e

/-- The method `TTRiingQuad::update_channel`, which calls
`process_fan((channel - 1) as usize, temp)`. `process_fan` begins with
`guard.fans[idx].compute_speed(temp)?` — a panicking `Vec` index followed by
curve evaluation. The subsequent `set_speed`/`get_data` device I/O is outside
the pure embedding; this function models the computation up to the duty value
that would be written. -/
def TTRiingQuad.update_channel_speed (fans : List Fan) (channel : ℕ) (temp : ℚ) :
    Outcome ℕ :=
  match fans.get? (sub1u8 channel) with
  | none => .panicked
  | some fan =>
    match fan.compute_speed temp with
    | .ok s => .ok s
    | .error e => .err e

/-- The method `TTRiingQuad::update_channel_color`, which calls
`process_fan_color((channel - 1) as usize, ..)`. `process_fan_color` never
touches the fan array: it only issues `set_rgb((idx + 1) as u8, 0x24, ..)`.
The device I/O is outside the embedding; this function models the port byte
that is sent, and shows that no local validation of `channel` happens. -/
def TTRiingQuad.update_channel_color_port (_fans : List Fan) (channel : ℕ) :
    Outcome ℕ :=
  .ok ((sub1u8 channel + 1) % 256)

/-! ## Protocol codec (src/src/drivers/tt_riing_quad/protocol.rs) -/

/-- The `Command` enum. Bytes are modelled as `ℕ` values below 256. -/
inductive Command where
  | init
  | getFirmwareVersion
  | getData (port : ℕ)
  | setSpeed (port speed : ℕ)
  | setRgb (port mode : ℕ) (colors : List (ℕ × ℕ × ℕ))
deriving DecidableEq

/-- The method `Command::to_bytes`, with the protocol constants inlined:
`CMD_INIT = 0x33`, `CMD_GET_FW_VERSION = 0x50`, `CMD_GET_DATA = CMD_SET_SPEED = 0x51`,
`CMD_SET_RGB = 0x52`, prefixes `0x00` and `0xFE`/`0x32`/`0x33`,
`SPEED_FLAG = 0x01`. A `SetRgb` color triple is written green, red, blue. -/
def Command.to_bytes : Command → List ℕ
  | .init => [0x00, 0xFE, 0x33]
  | .getFirmwareVersion => [0x00, 0x33, 0x50]
  | .getData port => [0x00, 0x33, 0x51, port]
  | .setSpeed port speed => [0x00, 0x32, 0x51, port, 0x01, speed]
  | .setRgb port mode colors =>
    [0x00, 0x32, 0x52, port, mode] ++ colors.flatMap (fun c => [c.1, c.2.1, c.2.2])

/-- The method `Command::expected_response_len`: always `RESPONSE_LEN = 193`. -/
def Command.expected_response_len : Command → ℕ := fun _ => 193

/-- The `Response` enum. -/
inductive Response where
  | status (code : ℕ)
  | firmwareVersion (major minor patch : ℕ)
  | data (speed rpm : ℕ)
deriving DecidableEq

/-- The method `Response::parse`: `Init`/`SetSpeed`/`SetRgb` read the status
byte at offset 2 (error on a shorter buffer); `GetFirmwareVersion` demands at
least 3 bytes and reads offsets 0, 1, 2; `GetData` demands at least 5 bytes and
reads `speed = buf[2]`, `rpm = (buf[4] as u16) << 8 | buf[3] as u16`. -/
def Response.parse (cmd : Command) (buf : List ℕ) : Except String Response :=
  match cmd with
  | .init | .setSpeed _ _ | .setRgb _ _ _ =>
    match buf.get? 2 with
    | some code => .ok (.status code)
    | none => .error "Empty status"
  | .getFirmwareVersion =>
    if buf.length < 3 then .error "Buf too small for FW"
    else .ok (.firmwareVersion (buf.getD 0 0) (buf.getD 1 0) (buf.getD 2 0))
  | .getData _ =>
    if buf.length < 5 then .error "Buf too small for Data"
    else .ok (.data (buf.getD 2 0) ((buf.getD 4 0) <<< 8 ||| buf.getD 3 0))

/-- The 193-byte response buffer a correct device would send for a given
semantic `Response`: the status byte at offset 2, the firmware triple at
offsets 0..2, or speed at offset 2 with the rpm little-endian at offsets 3, 4. -/
def deviceBuffer : Response → List ℕ
  | .status code => [0, 0, code] ++ List.replicate 190 0
  | .firmwareVersion major minor patch => [major, minor, patch] ++ List.replicate 190 0
  | .data speed rpm => [0, 0, speed, rpm % 256, rpm / 256] ++ List.replicate 188 0

/-- Which `Response` constructor a correct device answers each `Command` with. -/
def respMatches : Command → Response → Prop
  | .init, .status _ => True
  | .setSpeed _ _, .status _ => True
  | .setRgb _ _ _, .status _ => True
  | .getFirmwareVersion, .firmwareVersion _ _ _ => True
  | .getData _, .data _ _ => True
  | _, _ => False

/-- Byte-range side conditions under which a `Response` survives the encode
into a device buffer and the decode back: the rpm must fit in a `u16`. -/
def respWf : Response → Prop
  | .status _ => True
  | .firmwareVersion _ _ _ => True
  | .data _ rpm => rpm < 65536

/-! ## Sensor-to-fan mappings (src/src/mappings.rs) -/

/-- The `FanTarget` struct of src/src/config.rs: `controller : u8`,
`fan_idx : u8`, both documented as 1-based in the configuration. -/
structure FanTarget where
  controller : ℕ
  fan_idx : ℕ
deriving DecidableEq

/-- A `MappingCfg` entry: one sensor name and its list of fan targets. -/
structure MappingCfg where
  sensor : String
  targets : List FanTarget
deriving DecidableEq

/-- A `ColorMappingCfg` entry: one color name and its list of fan targets. -/
structure ColorMappingCfg where
  color : String
  targets : List FanTarget
deriving DecidableEq

/-- The `FanRef` struct of src/src/mappings.rs: `(controller_id, channel)`,
both `usize`. -/
abbrev FanRef := ℕ × ℕ

/-- The `Mapping` struct: the `DashMap` `fans2sensor` is modelled as a partial
function, the `DashMap` of `DashSet`s `sensor2fans` as a membership predicate
(an absent set and an empty set are indistinguishable through membership). -/
structure Mapping where
  fans2sensor : FanRef → Option String
  sensor2fans : String → FanRef → Bool

/-- The `Default` instance: both maps empty. -/
def Mapping.empty : Mapping := ⟨fun _ => none, fun _ _ => false⟩

/-- The `FanRef` built in the fold of `load_mappings`/`build_color_mapping`:
`FanRef { controller_id: target.controller as usize, channel: target.fan_idx as usize }`
— the configuration values are used verbatim, with no `- 1`. -/
def fanOf (t : FanTarget) : FanRef := (t.controller, t.fan_idx)

/-- One step of the `load_mappings` fold:
`acc.fans2sensor.insert(fan, sensor)` (overwriting) followed by
`acc.sensor2fans.entry(sensor).or_default().insert(fan)` (set insert; the fan
is not removed from any other sensor's set). -/
def insertMapping (m : Mapping) (sensor : String) (t : FanTarget) : Mapping :=
  { fans2sensor := fun f => if f = fanOf t then some sensor else m.fans2sensor f,
    sensor2fans := fun s f =>
      if s = sensor ∧ f = fanOf t then true else m.sensor2fans s f }

/-- The `flat_map` in `load_mappings`: each config entry is flattened into
`(sensor, target)` pairs in order. -/
def flattenMappings (cfg : List MappingCfg) : List (String × FanTarget) :=
  cfg.flatMap (fun m => m.targets.map (fun t => (m.sensor, t)))

/-- The function `Mapping::load_mappings`: fold `insertMapping` over the
flattened `(sensor, target)` pairs starting from the empty mapping. -/
def Mapping.load_mappings (cfg : List MappingCfg) : Mapping :=
  (flattenMappings cfg).foldl (fun acc st => insertMapping acc st.1 st.2) Mapping.empty

/-- The function `Mapping::attach`: `fans2sensor.insert(fan, sensor)` returns
the previous sensor, if any; the fan is removed from that sensor's set and then
inserted into the new sensor's set.  Pointwise, membership of `(s, f)` after
the call is: true for the new pair; false when `f` is the attached fan and `s`
was its previous sensor (the removal); otherwise unchanged. -/
def Mapping.attach (m : Mapping) (fan : FanRef) (sensor : String) : Mapping :=
  { fans2sensor := fun f => if f = fan then some sensor else m.fans2sensor f,
    sensor2fans := fun s f =>
      if s = sensor ∧ f = fan then true
      else if m.fans2sensor fan = some s ∧ f = fan then false
      else m.sensor2fans s f }

/-- The function `Mapping::detach`: `fans2sensor.remove(&fan)` returns the
sensor the fan was attached to, if any; the fan is removed from that sensor's
set.  Pointwise: the fan's `fans2sensor` entry becomes absent (it already was
when the remove found nothing), and membership of `(s, fan)` becomes false for
the sensor `s` it was attached to. -/
def Mapping.detach (m : Mapping) (fan : FanRef) : Mapping :=
  { fans2sensor := fun f => if f = fan then none else m.fans2sensor f,
    sensor2fans := fun s f =>
      if m.fans2sensor fan = some s ∧ f = fan then false else m.sensor2fans s f }

/-- The bidirectional-consistency invariant stated in the specification:
`fan_to_sensor[f] = s` iff `f ∈ sensor_to_fans[s]`. -/
def MappingInv (m : Mapping) : Prop :=
  ∀ f s, m.fans2sensor f = some s ↔ m.sensor2fans s f = true

/-- The `ColorMapping` struct: the `DashMap` of `DashSet`s `color2fans` as a
membership predicate. -/
structure ColorMapping where
  color2fans : String → FanRef → Bool

/-- The `flat_map` in `build_color_mapping`: `(color, target)` pairs in order. -/
def flattenColorMappings (cfg : List ColorMappingCfg) : List (String × FanTarget) :=
  cfg.flatMap (fun c => c.targets.map (fun t => (c.color, t)))

/-- One step of the `build_color_mapping` fold: the set insert
`acc.color2fans.entry(color).or_default().insert(fan)` with the verbatim
`FanRef`. -/
def insertColor (acc : ColorMapping) (color : String) (t : FanTarget) : ColorMapping :=
  ⟨fun s f => if s = color ∧ f = fanOf t then true else acc.color2fans s f⟩

/-- The function `ColorMapping::build_color_mapping`: fold `insertColor` over
the flattened `(color, target)` pairs starting from the empty mapping. -/
def ColorMapping.build_color_mapping (cfg : List ColorMappingCfg) : ColorMapping :=
  (flattenColorMappings cfg).foldl (fun acc ct => insertColor acc ct.1 ct.2)
    ⟨fun _ _ => false⟩

/-! ## One monitoring tick (src/src/providers/monitoring.rs,
`collect_and_process_temperatures`) -/

/-- Observable outcome of one tick: the function's `Result`, whether and with
what snapshot the shared sample cache was replaced, whether and with what
snapshot `TemperatureChanged` was published, and how many hot-path errors were
logged and skipped. -/
structure TickOutcome where
  result : Except String Unit
  cache : Option (List (String × ℚ))
  published : Option (List (String × ℚ))
  logs : ℕ

/-- `HashMap::insert` on the local `temperatures` snapshot, modelled as an
association list keyed uniquely: drop any previous binding of the key and
append the new one. -/
def insertSample (snap : List (String × ℚ)) (k : String) (v : ℚ) :
    List (String × ℚ) :=
  (snap.filter (fun p => p.1 ≠ k)) ++ [(k, v)]

/-- The inner `for fan in fans_for_sensor(..)` loop of one tick:
`u8::try_from(fan.controller_id)?` and `u8::try_from(fan.channel)?` abort the
whole tick with `?` when a component exceeds `u8`; a failed
`controllers.update_channel(..)` is logged (counted) and skipped. -/
def updateFansGo (upd : ℕ → ℕ → Except String Unit) :
    List FanRef → ℕ → Except String ℕ
  | [], logs => .ok logs
  | (c, ch) :: rest, logs =>
    if 256 ≤ c then .error "Controller ID too large for u8"
    else if 256 ≤ ch then .error "Channel too large for u8"
    else
      match upd c ch with
      | .error _ => updateFansGo upd rest (logs + 1)
      | .ok _ => updateFansGo upd rest logs

/-- The outer per-sensor loop of one tick: a failed `read_temperature` is
logged (counted) and the loop continues; a successful read is recorded in the
snapshot and its fans are updated. -/
def tickGo (fansFor : String → List FanRef) (upd : ℕ → ℕ → Except String Unit) :
    List (String × Except String ℚ) → List (String × ℚ) → ℕ →
    Except String (List (String × ℚ) × ℕ)
  | [], snap, logs => .ok (snap, logs)
  | (_, .error _) :: rest, snap, logs => tickGo fansFor upd rest snap (logs + 1)
  | (key, .ok temp) :: rest, snap, logs =>
    let snap2 := insertSample snap key temp
    match updateFansGo upd (fansFor key) logs with
    | .error e => .error e
    | .ok logs2 => tickGo fansFor upd rest snap2 logs2

/-- The function `collect_and_process_temperatures` as a function of the
tick's inputs: the ordered sensor read results, the mapping query
`fans_for_sensor`, and the per-channel result of
`controllers.update_channel`.  On success the shared cache is replaced by the
snapshot and `TemperatureChanged(snapshot)` is published (a publish failure is
itself only logged); an early `?` return leaves the cache untouched and
publishes nothing. -/
def collectAndProcessTemperatures (sensors : List (String × Except String ℚ))
    (fansFor : String → List FanRef) (upd : ℕ → ℕ → Except String Unit) :
    TickOutcome :=
  match tickGo fansFor upd sensors [] 0 with
  | .error e => { result := .error e, cache := none, published := none, logs := 0 }
  | .ok (snap, logs) =>
    { result := .ok (), cache := some snap, published := some snap, logs := logs }

/-- The snapshot a tick builds from a starting snapshot: the successful reads,
inserted in order. -/
def okReadsFrom (snap : List (String × ℚ)) :
    List (String × Except String ℚ) → List (String × ℚ)
  | [] => snap
  | (k, .ok t) :: rest => okReadsFrom (insertSample snap k t) rest
  | (_, .error _) :: rest => okReadsFrom snap rest

/-- The snapshot a tick builds: the successful reads, inserted in order. -/
def okReads (sensors : List (String × Except String ℚ)) : List (String × ℚ) :=
  okReadsFrom [] sensors

/-! ## Configuration model and change classifier (src/src/config.rs,
src/src/event.rs; classifier modelled from the spec) -/

/-- The `UsbSelector` struct of src/src/config.rs. -/
structure UsbSelector where
  vid : ℕ
  pid : ℕ
  serial : Option String
deriving DecidableEq

/-- The `FanCfg` struct of src/src/config.rs. -/
structure FanCfg where
  idx : ℕ
  name : String
  active_curve : String
  curve : List String
deriving DecidableEq

/-- The `ControllerCfg` enum of src/src/config.rs (single variant). -/
inductive ControllerCfg where
  | RiingQuad (id : String) (usb : UsbSelector) (fans : List FanCfg)
deriving DecidableEq

/-- The `SensorCfg` enum of src/src/config.rs (single variant). -/
inductive SensorCfg where
  | LmSensors (id chip feature : String)
deriving DecidableEq

/-- The `CurveCfg` enum of src/src/config.rs. -/
inductive CurveCfg where
  | Constant (id : String) (speed : ℕ)
  | StepCurve (id : String) (tmps : List ℚ) (spds : List ℕ)
  | Bezier (id : String) (points : List (ℚ × ℚ))
deriving DecidableEq

/-- The `ColorCfg` struct of src/src/config.rs. -/
structure ColorCfg where
  color : String
  rgb : ℕ × ℕ × ℕ
deriving DecidableEq

/-- The `Config` struct of src/src/config.rs (structural representation;
value equality is the derived decidable equality). -/
structure Config where
  version : ℕ
  tick_seconds : ℕ
  enable_broadcast : Bool
  broadcast_interval : ℕ
  controllers : List ControllerCfg
  curves : List CurveCfg
  sensors : List SensorCfg
  mappings : List MappingCfg
  colors : List ColorCfg
  color_mappings : List ColorMappingCfg
deriving DecidableEq

/-- The `ConfigChangeType` enum of src/src/event.rs. -/
inductive ConfigChangeType where
  | HotReload
  | ColdRestart (changed_sections : List String)
deriving DecidableEq

/-- Modelled from the spec: the body of `ConfigManager::analyze_config_changes`
is not among the provided sources (src/src/providers/config_watcher.rs and
src/src/interface.rs only call it).  Following spec §4.9: compare the old and
the re-parsed configuration field by field; if `controllers` or `sensors`
differs by value equality over the structural representation, return
`ColdRestart` whose `changed_sections` names exactly the differing sections
(in the order controllers, sensors); otherwise return `HotReload`. -/
def analyzeConfigChanges (old new : Config) : ConfigChangeType :=
  let sections :=
    (if old.controllers ≠ new.controllers then ["controllers"] else []) ++
    (if old.sensors ≠ new.sensors then ["sensors"] else [])
  if sections.isEmpty then .HotReload else .ColdRestart sections

/-! ## Derived notions used by the statements -/

/-- Last sensor paired with a given fan in a flattened `(sensor, target)`
list; this is what the overwriting `fans2sensor.insert` of the load fold
leaves behind. -/
def lastSensor : List (String × FanTarget) → FanRef → Option String
  | [], _ => none
  | (s, t) :: rest, f =>
    match lastSensor rest f with
    | some r => some r
    | none => if fanOf t = f then some s else none

/-- A mapping configuration in which any two flattened entries naming the same
fan name the same sensor (no fan appears under two different sensors). -/
def ConsistentCfg (cfg : List MappingCfg) : Prop :=
  ∀ s1 t1 s2 t2, (s1, t1) ∈ flattenMappings cfg → (s2, t2) ∈ flattenMappings cfg →
    fanOf t1 = fanOf t2 → s1 = s2

/-- Per-channel update failures counted by one tick (those logged and
skipped). -/
def countUpdErrs (upd : ℕ → ℕ → Except String Unit) : List FanRef → ℕ
  | [] => 0
  | (c, ch) :: rest =>
    (match upd c ch with | .error _ => 1 | .ok _ => 0) + countUpdErrs upd rest

/-- All hot-path errors one tick logs and skips: one per failed sensor read,
plus the failed channel updates of each successfully read sensor. -/
def tickLogCount (fansFor : String → List FanRef) (upd : ℕ → ℕ → Except String Unit) :
    List (String × Except String ℚ) → ℕ
  | [] => 0
  | (_, .error _) :: rest => tickLogCount fansFor upd rest + 1
  | (k, .ok _) :: rest => countUpdErrs upd (fansFor k) + tickLogCount fansFor upd rest

/-- Strictly ascending x coordinates of a Bezier control polygon. -/
def StrictAscX (pts : List (ℚ × ℚ)) : Prop :=
  List.Pairwise (fun a b => a.1 < b.1) pts

/-! ## Concrete sample values used by witnesses and counterexamples -/

/-- A fan whose single curve is the step curve of spec Scenario A. -/
def stepFan : Fan :=
  ⟨0, 0, "step", [("step", FanCurve.StepCurve [30, 50, 70] [20, 60, 100])]⟩

/-- A constant-height Bezier control polygon with strictly ascending `x` and
every `y` equal to 200. -/
def flatBez : List (ℚ × ℚ) := [(0, 200), (1, 200), (2, 200), (3, 200)]

/-- A fan whose active curve is `flatBez`. -/
def bezFlatFan : Fan := ⟨0, 0, "bez", [("bez", FanCurve.BezierCurve flatBez)]⟩

/-- The default Bezier control polygon of `build_default_curves` in
src/src/drivers/tt_riing_quad/ttriing_quad.rs. -/
def defaultBez : List (ℚ × ℚ) := [(0, 0), (40, 60), (60, 40), (100, 100)]

/-- A fan whose active curve is `defaultBez`. -/
def bezDefaultFan : Fan := ⟨0, 0, "bez", [("bez", FanCurve.BezierCurve defaultBez)]⟩

/-- A fan with the default constant curve, as built by `probe`. -/
def fan0 : Fan := ⟨0, 0, "Constant", [("Constant", FanCurve.Constant 50)]⟩

/-- A five-fan controller state (a Riing Quad controller has five channels). -/
def fans5 : List Fan := List.replicate 5 fan0

/-- A mapping configuration attaching the same fan to two different sensors. -/
def dupCfg : List MappingCfg := [⟨"s1", [⟨1, 1⟩]⟩, ⟨"s2", [⟨1, 1⟩]⟩]

/-- A small configuration with one sensor. -/
def cfgA : Config :=
  ⟨1, 2, false, 2, [], [], [SensorCfg.LmSensors "cpu" "k10temp" "Tctl"], [], [], []⟩

/-- The same configuration with the sensor's feature changed. -/
def cfgB : Config :=
  ⟨1, 2, false, 2, [], [], [SensorCfg.LmSensors "cpu" "k10temp" "Tdie"], [], [], []⟩

/-- The same configuration with only a hot-reloadable field changed. -/
def cfgC : Config :=
  ⟨1, 5, false, 2, [], [], [SensorCfg.LmSensors "cpu" "k10temp" "Tctl"], [], [], []⟩

/-! ## Helper lemmas -/

/-- The kind-only equality decides exactly agreement of the discriminants. -/
theorem fanCurveEq_iff_kind (a b : FanCurve) :
    fanCurveEq a b = true ↔ a.kind = b.kind := by
  cases a <;> cases b <;> simp [fanCurveEq, FanCurve.kind]

/-! ## C10 — FanCurve equality is a kind check -/

/-- C10: the `PartialEq` on `FanCurve` compares only the variant
discriminant: two values of the same variant are equal regardless of the
contained speed, temps/speeds vectors, or points (in particular
`Constant(0) == Constant(100)`), and values of different variants are never
equal. -/
theorem fanCurve_eq_is_kind_check :
    (∀ a b : FanCurve, fanCurveEq a b = true ↔ a.kind = b.kind) ∧
    fanCurveEq (.Constant 0) (.Constant 100) = true ∧
    (∀ x temps speeds points,
      fanCurveEq (.Constant x) (.StepCurve temps speeds) = false ∧
      fanCurveEq (.Constant x) (.BezierCurve points) = false ∧
      fanCurveEq (.StepCurve temps speeds) (.BezierCurve points) = false) := by
  refine ⟨fanCurveEq_iff_kind, rfl, ?_⟩
  intro x temps speeds points
  exact ⟨rfl, rfl, rfl⟩

/-! ## C9 — update_curve_data error behavior -/

/-- C9 counterexample: on a fan that stores only `("a", Constant 50)`, a
kind-incompatible update of `"a"` and an update of the absent key `"missing"`
produce the very same error value `"Curve not found"`; there is no distinct
`IncompatibleCurveKind` failure distinguishable by the caller. -/
theorem update_curve_data_same_error :
    Fan.update_curve_data ⟨0, 0, "a", [("a", FanCurve.Constant 50)]⟩ "a"
      (FanCurve.StepCurve [] []) = .error "Curve not found" ∧
    Fan.update_curve_data ⟨0, 0, "a", [("a", FanCurve.Constant 50)]⟩ "missing"
      (FanCurve.StepCurve [] []) = .error "Curve not found" := by
  exact ⟨rfl, rfl⟩

/-- C9 (amended): `update_curve_data(name, data)` fails when `name` is absent
and also when the stored curve and `data` are of different variants, in both
cases with the same `"Curve not found"` error (the `.filter` collapses the
kind mismatch into the absent case); when the name exists and the kinds agree
it replaces the stored curve with `data`. -/
theorem update_curve_data_spec (fan : Fan) (name : String) (data : FanCurve) :
    (lookupCurve fan.curve name = none →
      fan.update_curve_data name data = .error "Curve not found") ∧
    (∀ c, lookupCurve fan.curve name = some c → c.kind ≠ data.kind →
      fan.update_curve_data name data = .error "Curve not found") ∧
    (∀ c, lookupCurve fan.curve name = some c → c.kind = data.kind →
      fan.update_curve_data name data =
        .ok { fan with curve := updateAssoc fan.curve name data }) := by
  refine ⟨?_, ?_, ?_⟩
  · intro h
    simp [Fan.update_curve_data, h]
  · intro c hc hk
    have : fanCurveEq c data = false := by
      rcases h : fanCurveEq c data with _ | _
      · rfl
      · exact absurd ((fanCurveEq_iff_kind c data).mp h) hk
    simp [Fan.update_curve_data, hc, this]
  · intro c hc hk
    have : fanCurveEq c data = true := (fanCurveEq_iff_kind c data).mpr hk
    simp [Fan.update_curve_data, hc, this]

/-- C9 witness: a concrete kind-compatible replacement goes through. -/
theorem update_curve_data_spec_witness :
    Fan.update_curve_data ⟨0, 0, "a", [("a", FanCurve.Constant 50)]⟩ "a"
      (FanCurve.Constant 80) = .ok ⟨0, 0, "a", [("a", FanCurve.Constant 80)]⟩ := by
  exact (update_curve_data_spec ⟨0, 0, "a", [("a", FanCurve.Constant 50)]⟩ "a"
    (FanCurve.Constant 80)).2.2 (FanCurve.Constant 50) rfl rfl

/-! ## C5 — channel range handling -/

/-- C5 counterexample: on a five-fan controller, `update_channel` with the
out-of-range channel 7 panics (the `fans[idx]` index in `process_fan`), rather
than returning an `UnknownChannel`-style error. -/
theorem update_channel_out_of_range_panics :
    TTRiingQuad.update_channel_speed fans5 7 0 = .panicked ∧
    TTRiingQuad.update_channel_speed fans5 7 0 ≠ .err "Fan not found" := by
  have h1 : TTRiingQuad.update_channel_speed fans5 7 0 = Outcome.panicked := rfl
  constructor
  · exact h1
  · rw [h1]
    simp

/-- C5 (amended): for a channel whose converted 0-based index
`(channel - 1) as usize` falls outside the fan array, `switch_curve`,
`get_active_curve` and `update_curve_data` return a `Fan`/`Fans not found`
error, while `update_channel` panics on the direct `fans[idx]` index and
`update_channel_color` performs no local channel validation at all (it just
forwards port `channel` to the device); for channels `1..=255` the external
1-based channel converts to the 0-based index `channel - 1`. -/
theorem channel_ops_out_of_range (fans : List Fan) (channel : ℕ)
    (h : fans.length ≤ sub1u8 channel) (temp : ℚ) (c : String) (data : FanCurve) :
    TTRiingQuad.switch_curve fans channel c = .err "Fan not found" ∧
    TTRiingQuad.get_active_curve fans channel = .err "Fans not found" ∧
    TTRiingQuad.update_curve_data fans channel c data = .err "Fans not found" ∧
    TTRiingQuad.update_channel_speed fans channel temp = .panicked ∧
    TTRiingQuad.update_channel_color_port fans channel =
      .ok ((sub1u8 channel + 1) % 256) ∧
    (1 ≤ channel → channel ≤ 255 → sub1u8 channel = channel - 1) := by
  have hg : fans[sub1u8 channel]? = none := List.getElem?_eq_none h
  refine ⟨?_, ?_, ?_, ?_, rfl, ?_⟩
  · simp [TTRiingQuad.switch_curve, List.get?_eq_getElem?, hg]
  · simp [TTRiingQuad.get_active_curve, List.get?_eq_getElem?, hg]
  · simp [TTRiingQuad.update_curve_data, List.get?_eq_getElem?, hg]
  · simp [TTRiingQuad.update_channel_speed, List.get?_eq_getElem?, hg]
  · intro h1 h255
    simp only [sub1u8]
    omega

/-! ## Mapping fold lemmas -/

/-- Membership in a sensor's set after the load fold: the fan got there from
some flattened entry, or was there already. -/
theorem foldl_sensor2fans (L : List (String × FanTarget)) :
    ∀ (m : Mapping) (s : String) (f : FanRef),
      ((L.foldl (fun acc st => insertMapping acc st.1 st.2) m).sensor2fans s f = true) ↔
      ((∃ t, (s, t) ∈ L ∧ fanOf t = f) ∨ m.sensor2fans s f = true) := by
  induction L with
  | nil =>
    intro m s f
    simp
  | cons hd tl ih =>
    intro m s f
    rw [List.foldl_cons, ih]
    by_cases hc : s = hd.1 ∧ f = fanOf hd.2
    · rcases hc with ⟨rfl, rfl⟩
      constructor
      · intro _
        exact Or.inl ⟨hd.2, by simp, rfl⟩
      · intro _
        right
        simp [insertMapping]
    · have hv : (insertMapping m hd.1 hd.2).sensor2fans s f = m.sensor2fans s f := by
        simp only [insertMapping]
        rw [if_neg hc]
      rw [hv]
      constructor
      · rintro (⟨t, ht, hf⟩ | hm)
        · exact Or.inl ⟨t, List.mem_cons_of_mem _ ht, hf⟩
        · exact Or.inr hm
      · rintro (⟨t, ht, hf⟩ | hm)
        · rcases List.mem_cons.mp ht with heq | htl
          · exfalso
            apply hc
            have h1 : s = hd.1 := congrArg Prod.fst heq
            have h2 : t = hd.2 := congrArg Prod.snd heq
            exact ⟨h1, by rw [← hf, h2]⟩
          · exact Or.inl ⟨t, htl, hf⟩
        · exact Or.inr hm

/-- The overwriting `fans2sensor` insert of the load fold keeps the sensor of
the last flattened entry naming the fan. -/
theorem foldl_fans2sensor (L : List (String × FanTarget)) :
    ∀ (m : Mapping) (f : FanRef),
      (L.foldl (fun acc st => insertMapping acc st.1 st.2) m).fans2sensor f =
      (match lastSensor L f with
       | some s => some s
       | none => m.fans2sensor f) := by
  induction L with
  | nil =>
    intro m f
    rfl
  | cons hd tl ih =>
    intro m f
    rw [List.foldl_cons, ih]
    cases hlast : lastSensor tl f with
    | some r => simp [lastSensor, hlast]
    | none =>
      simp only [lastSensor, hlast]
      by_cases hf : fanOf hd.2 = f
      · rw [if_pos hf]
        simp [insertMapping, hf.symm]
      · rw [if_neg hf]
        have : f ≠ fanOf hd.2 := fun h => hf h.symm
        simp [insertMapping, this]

/-- A `lastSensor` hit names a flattened entry. -/
theorem lastSensor_mem :
    ∀ (L : List (String × FanTarget)) (f : FanRef) (s : String),
      lastSensor L f = some s → ∃ t, (s, t) ∈ L ∧ fanOf t = f := by
  intro L
  induction L with
  | nil =>
    intro f s h
    simp [lastSensor] at h
  | cons hd tl ih =>
    intro f s h
    simp only [lastSensor] at h
    cases hlast : lastSensor tl f with
    | some r =>
      rw [hlast] at h
      obtain ⟨t, ht, hf⟩ := ih f s (hlast.trans (by rw [← h]))
      exact ⟨t, List.mem_cons_of_mem _ ht, hf⟩
    | none =>
      rw [hlast] at h
      by_cases hfan : fanOf hd.2 = f
      · rw [if_pos hfan] at h
        refine ⟨hd.2, ?_, hfan⟩
        have : s = hd.1 := (Option.some.inj h).symm
        rw [this]
        simp
      · rw [if_neg hfan] at h
        exact absurd h (by simp)

/-- An entry naming the fan guarantees `lastSensor` hits. -/
theorem lastSensor_isSome :
    ∀ (L : List (String × FanTarget)) (s : String) (t : FanTarget),
      (s, t) ∈ L → lastSensor L (fanOf t) ≠ none := by
  intro L
  induction L with
  | nil =>
    intro s t h
    simp at h
  | cons hd tl ih =>
    intro s t hmem h
    simp only [lastSensor] at h
    cases hlast : lastSensor tl (fanOf t) with
    | some r =>
      rw [hlast] at h
      exact absurd h (by simp)
    | none =>
      rw [hlast] at h
      rcases List.mem_cons.mp hmem with heq | htl
      · have h2 : t = hd.2 := congrArg Prod.snd heq
        rw [if_pos (by rw [← h2])] at h
        exact absurd h (by simp)
      · exact ih s t htl hlast

/-- Membership in a color's set after the color-mapping fold, mirroring
`foldl_sensor2fans`. -/
theorem foldl_color2fans (L : List (String × FanTarget)) :
    ∀ (acc : ColorMapping) (c : String) (f : FanRef),
      ((L.foldl (fun acc ct => insertColor acc ct.1 ct.2) acc).color2fans c f = true) ↔
      ((∃ t, (c, t) ∈ L ∧ fanOf t = f) ∨ acc.color2fans c f = true) := by
  induction L with
  | nil =>
    intro acc c f
    simp
  | cons hd tl ih =>
    intro acc c f
    rw [List.foldl_cons, ih]
    by_cases hc : c = hd.1 ∧ f = fanOf hd.2
    · rcases hc with ⟨rfl, rfl⟩
      constructor
      · intro _
        exact Or.inl ⟨hd.2, by simp, rfl⟩
      · intro _
        right
        simp [insertColor]
    · have hv : (insertColor acc hd.1 hd.2).color2fans c f = acc.color2fans c f := by
        simp only [insertColor]
        rw [if_neg hc]
      rw [hv]
      constructor
      · rintro (⟨t, ht, hf⟩ | hm)
        · exact Or.inl ⟨t, List.mem_cons_of_mem _ ht, hf⟩
        · exact Or.inr hm
      · rintro (⟨t, ht, hf⟩ | hm)
        · rcases List.mem_cons.mp ht with heq | htl
          · exfalso
            apply hc
            have h1 : c = hd.1 := congrArg Prod.fst heq
            have h2 : t = hd.2 := congrArg Prod.snd heq
            exact ⟨h1, by rw [← hf, h2]⟩
          · exact Or.inl ⟨t, htl, hf⟩
        · exact Or.inr hm

/-- One `insertMapping` step preserves the invariant and the origin of the
`fans2sensor` entries, for any fan-functional allowed relation `R`. -/
theorem insertMapping_inv (m : Mapping) (R : String → FanRef → Prop)
    (hfun : ∀ s1 s2 f, R s1 f → R s2 f → s1 = s2)
    (hm : MappingInv m) (hment : ∀ f s, m.fans2sensor f = some s → R s f)
    (a : String) (t : FanTarget) (hR : R a (fanOf t)) :
    MappingInv (insertMapping m a t) ∧
    (∀ f s, (insertMapping m a t).fans2sensor f = some s → R s f) := by
  constructor
  · intro f s
    simp only [insertMapping]
    by_cases hf : f = fanOf t
    · subst hf
      by_cases hs : s = a
      · subst hs
        simp
      · rw [if_pos rfl, if_neg (fun hc => hs hc.1)]
        constructor
        · intro h
          exact absurd (Option.some.inj h).symm hs
        · intro h
          have hR2 := hment (fanOf t) s ((hm (fanOf t) s).mpr h)
          exact absurd (hfun s a (fanOf t) hR2 hR) hs
    · rw [if_neg hf, if_neg (fun hc => hf hc.2)]
      exact hm f s
  · intro f s h
    simp only [insertMapping] at h
    by_cases hf : f = fanOf t
    · rw [if_pos hf] at h
      rw [← Option.some.inj h, hf]
      exact hR
    · rw [if_neg hf] at h
      exact hment f s h

/-- The whole load fold preserves the invariant under a fan-functional
allowed relation covering all entries. -/
theorem load_fold_inv (R : String → FanRef → Prop)
    (hfun : ∀ s1 s2 f, R s1 f → R s2 f → s1 = s2) :
    ∀ (L : List (String × FanTarget)), (∀ p ∈ L, R p.1 (fanOf p.2)) →
    ∀ m, MappingInv m → (∀ f s, m.fans2sensor f = some s → R s f) →
    MappingInv (L.foldl (fun acc st => insertMapping acc st.1 st.2) m) := by
  intro L
  induction L with
  | nil =>
    intro _ m hm _
    simpa using hm
  | cons hd tl ih =>
    intro hmem m hm hment
    rw [List.foldl_cons]
    have h1 := insertMapping_inv m R hfun hm hment hd.1 hd.2
      (hmem hd (List.mem_cons_self _ _))
    exact ih (fun p hp => hmem p (List.mem_cons_of_mem _ hp)) _ h1.1 h1.2

/-- The function `Mapping::attach` preserves the bidirectional invariant. -/
theorem attach_preserves_inv (m : Mapping) (fan : FanRef) (sensor : String)
    (hm : MappingInv m) : MappingInv (m.attach fan sensor) := by
  intro f s
  simp only [Mapping.attach]
  by_cases hf : f = fan
  · subst hf
    rw [if_pos rfl]
    by_cases hs : s = sensor
    · subst hs
      rw [if_pos ⟨rfl, rfl⟩]
      simp
    · rw [if_neg (fun hc => hs hc.1)]
      by_cases hrem : m.fans2sensor f = some s
      · rw [if_pos ⟨hrem, rfl⟩]
        constructor
        · intro h
          exact absurd (Option.some.inj h).symm hs
        · intro h
          exact absurd h (by simp)
      · rw [if_neg (fun hc => hrem hc.1)]
        constructor
        · intro h
          exact absurd (Option.some.inj h).symm hs
        · intro h
          exact absurd ((hm f s).mpr h) hrem
  · rw [if_neg hf, if_neg (fun hc => hf hc.2), if_neg (fun hc => hf hc.2)]
    exact hm f s

/-- The function `Mapping::detach` preserves the bidirectional invariant. -/
theorem detach_preserves_inv (m : Mapping) (fan : FanRef)
    (hm : MappingInv m) : MappingInv (m.detach fan) := by
  intro f s
  simp only [Mapping.detach]
  by_cases hf : f = fan
  · subst hf
    rw [if_pos rfl]
    constructor
    · intro h
      exact absurd h (by simp)
    · intro h
      by_cases hrem : m.fans2sensor f = some s
      · rw [if_pos ⟨hrem, rfl⟩] at h
        exact absurd h (by simp)
      · rw [if_neg (fun hc => hrem hc.1)] at h
        exact absurd ((hm f s).mpr h) hrem
  · rw [if_neg hf, if_neg (fun hc => hf hc.2)]
    exact hm f s

/-! ## C1 — load-time normalization of config targets -/

/-- C1 counterexample: for the single mapping entry with sensor `"s"` and
target `{controller: 1, fan_idx: 1}`, the loaded index does not contain the
0-based `(0, 0)` anywhere — it stores the verbatim `(1, 1)`; likewise
`build_color_mapping` stores the verbatim pair, so no 1-based to 0-based
normalization happens on load. -/
theorem load_mappings_no_normalization :
    (Mapping.load_mappings [⟨"s", [⟨1, 1⟩]⟩]).sensor2fans "s" (0, 0) = false ∧
    (Mapping.load_mappings [⟨"s", [⟨1, 1⟩]⟩]).fans2sensor (0, 0) = none ∧
    (Mapping.load_mappings [⟨"s", [⟨1, 1⟩]⟩]).sensor2fans "s" (1, 1) = true ∧
    (Mapping.load_mappings [⟨"s", [⟨1, 1⟩]⟩]).fans2sensor (1, 1) = some "s" ∧
    (ColorMapping.build_color_mapping [⟨"blue", [⟨1, 1⟩]⟩]).color2fans "blue" (0, 0)
      = false ∧
    (ColorMapping.build_color_mapping [⟨"blue", [⟨1, 1⟩]⟩]).color2fans "blue" (1, 1)
      = true := by
  exact ⟨rfl, rfl, rfl, rfl, rfl, rfl⟩

/-- C1 (amended): `load_mappings` copies every config target verbatim —
`FanRef (c, f)`, not `(c - 1, f - 1)` — into `sensor_to_fans[s]`; the
`fan_to_sensor` entry of a fan is the sensor of the last flattened entry
naming it (so `s` itself when the fan appears under no other sensor); and
`build_color_mapping` likewise records the verbatim pair. -/
theorem load_mappings_verbatim (cfg : List MappingCfg) (s : String) (t : FanTarget)
    (h1 : (s, t) ∈ flattenMappings cfg)
    (h2 : ∀ s2 t2, (s2, t2) ∈ flattenMappings cfg → fanOf t2 = fanOf t → s2 = s) :
    (Mapping.load_mappings cfg).sensor2fans s (t.controller, t.fan_idx) = true ∧
    (Mapping.load_mappings cfg).fans2sensor (t.controller, t.fan_idx) = some s ∧
    (∀ ccfg (c : String) (u : FanTarget), (c, u) ∈ flattenColorMappings ccfg →
      (ColorMapping.build_color_mapping ccfg).color2fans c (u.controller, u.fan_idx)
        = true) := by
  have hfan : fanOf t = (t.controller, t.fan_idx) := rfl
  refine ⟨?_, ?_, ?_⟩
  · rw [Mapping.load_mappings, foldl_sensor2fans]
    exact Or.inl ⟨t, h1, rfl⟩
  · rw [Mapping.load_mappings, foldl_fans2sensor]
    cases hlast : lastSensor (flattenMappings cfg) (t.controller, t.fan_idx) with
    | none => exact absurd hlast (lastSensor_isSome _ s t h1)
    | some r =>
      obtain ⟨t2, hmem2, hfan2⟩ := lastSensor_mem _ _ _ hlast
      exact congrArg Option.some (h2 r t2 hmem2 hfan2)
  · intro ccfg c u hmem
    rw [ColorMapping.build_color_mapping, foldl_color2fans]
    exact Or.inl ⟨u, hmem, rfl⟩

/-- C1 witness: the amended load behavior at a concrete one-entry
configuration. -/
theorem load_mappings_verbatim_witness :
    (Mapping.load_mappings [⟨"cpu", [⟨2, 3⟩]⟩]).sensor2fans "cpu" (2, 3) = true ∧
    (Mapping.load_mappings [⟨"cpu", [⟨2, 3⟩]⟩]).fans2sensor (2, 3) = some "cpu" ∧
    (ColorMapping.build_color_mapping [⟨"blue", [⟨4, 5⟩]⟩]).color2fans "blue" (4, 5)
      = true := by
  have H := load_mappings_verbatim [⟨"cpu", [⟨2, 3⟩]⟩] "cpu" ⟨2, 3⟩
    (List.mem_singleton.mpr rfl)
    (by
      intro s2 t2 hmem _
      have h3 : (s2, t2) ∈ [("cpu", (⟨2, 3⟩ : FanTarget))] := hmem
      exact congrArg Prod.fst (List.mem_singleton.mp h3))
  exact ⟨H.1, H.2.1,
    H.2.2 [⟨"blue", [⟨4, 5⟩]⟩] "blue" ⟨4, 5⟩ (List.mem_singleton.mpr rfl)⟩

/-! ## C6 — the bidirectional mapping invariant -/

/-- C6 counterexample: loading a configuration in which the fan `(1, 1)`
appears under both `"s1"` and `"s2"` breaks the invariant: the fan stays in
`sensor_to_fans["s1"]` while `fan_to_sensor` points to `"s2"` (the load fold
never removes a fan from an earlier sensor's set). -/
theorem load_mappings_dup_breaks_inv :
    ¬ MappingInv (Mapping.load_mappings dupCfg) := by
  intro h
  have h1 : (Mapping.load_mappings dupCfg).sensor2fans "s1" (1, 1) = true := rfl
  have h2 := (h (1, 1) "s1").mpr h1
  have h3 : (Mapping.load_mappings dupCfg).fans2sensor (1, 1) = some "s2" := rfl
  rw [h3] at h2
  exact absurd (Option.some.inj h2) (by decide)

/-- C6 (amended): `fans2sensor[f] = s` iff `f ∈ sensor2fans[s]` holds after
`load_mappings` for configurations in which no fan appears under two
different sensors, and the invariant is preserved by every `attach` and
`detach`; with duplicate entries across sensors, `load_mappings` itself
leaves the fan in the earlier sensor's set and the invariant fails. -/
theorem mapping_invariant_preserved (m : Mapping) (fan : FanRef) (sensor : String)
    (cfg : List MappingCfg) (hm : MappingInv m) (hc : ConsistentCfg cfg) :
    MappingInv (m.attach fan sensor) ∧ MappingInv (m.detach fan) ∧
    MappingInv (Mapping.load_mappings cfg) := by
  refine ⟨attach_preserves_inv m fan sensor hm, detach_preserves_inv m fan hm, ?_⟩
  rw [Mapping.load_mappings]
  apply load_fold_inv (fun s f => ∃ t, (s, t) ∈ flattenMappings cfg ∧ fanOf t = f)
  · rintro s1 s2 f ⟨t1, hm1, hf1⟩ ⟨t2, hm2, hf2⟩
    exact hc s1 t1 s2 t2 hm1 hm2 (hf1.trans hf2.symm)
  · intro p hp
    exact ⟨p.2, by simpa using hp, rfl⟩
  · intro f s
    simp [Mapping.empty]
  · intro f s h
    simp [Mapping.empty] at h

/-- C6 witness: the amended statement at the empty mapping, a concrete fan and
sensor, and a concrete duplicate-free configuration. -/
theorem mapping_invariant_preserved_witness :
    MappingInv (Mapping.empty.attach (1, 1) "s") ∧
    MappingInv (Mapping.empty.detach (1, 1)) ∧
    MappingInv (Mapping.load_mappings [⟨"cpu", [⟨2, 3⟩]⟩]) := by
  exact mapping_invariant_preserved Mapping.empty (1, 1) "s" [⟨"cpu", [⟨2, 3⟩]⟩]
    (by intro f s; simp [Mapping.empty])
    (by
      intro s1 t1 s2 t2 hm1 hm2 _
      have g1 : (s1, t1) ∈ [("cpu", (⟨2, 3⟩ : FanTarget))] := hm1
      have g2 : (s2, t2) ∈ [("cpu", (⟨2, 3⟩ : FanTarget))] := hm2
      have e1 : s1 = "cpu" := congrArg Prod.fst (List.mem_singleton.mp g1)
      have e2 : s2 = "cpu" := congrArg Prod.fst (List.mem_singleton.mp g2)
      rw [e1, e2])

/-- C5 witness: the amended statement at the concrete five-fan controller and
channel 7. -/
theorem channel_ops_out_of_range_witness :
    TTRiingQuad.switch_curve fans5 7 "x" = .err "Fan not found" ∧
    TTRiingQuad.get_active_curve fans5 7 = .err "Fans not found" ∧
    TTRiingQuad.update_curve_data fans5 7 "x" (FanCurve.Constant 1) =
      .err "Fans not found" ∧
    TTRiingQuad.update_channel_speed fans5 7 0 = .panicked ∧
    TTRiingQuad.update_channel_color_port fans5 7 = .ok ((sub1u8 7 + 1) % 256) ∧
    (1 ≤ 7 → 7 ≤ 255 → sub1u8 7 = 7 - 1) := by
  exact channel_ops_out_of_range fans5 7 (by decide) 0 "x" (FanCurve.Constant 1)

/-! ## C7 — tick error handling -/

/-- The fan-update loop of a tick succeeds and counts its logged failures when
every fan reference fits in a `u8`. -/
theorem updateFansGo_ok (upd : ℕ → ℕ → Except String Unit) :
    ∀ (refs : List FanRef), (∀ f ∈ refs, f.1 < 256 ∧ f.2 < 256) →
    ∀ logs, updateFansGo upd refs logs = .ok (logs + countUpdErrs upd refs) := by
  intro refs
  induction refs with
  | nil =>
    intro _ logs
    simp [updateFansGo, countUpdErrs]
  | cons hd tl ih =>
    obtain ⟨c, ch⟩ := hd
    intro hsmall logs
    have h1 := (hsmall (c, ch) (List.mem_cons_self _ _)).1
    have h2 := (hsmall (c, ch) (List.mem_cons_self _ _)).2
    have htl : ∀ f ∈ tl, f.1 < 256 ∧ f.2 < 256 :=
      fun f hf => hsmall f (List.mem_cons_of_mem _ hf)
    simp only [updateFansGo, countUpdErrs]
    rw [if_neg (by omega), if_neg (by omega)]
    cases hupd : upd c ch with
    | error e =>
      rw [ih htl (logs + 1)]
      have harith : logs + 1 + countUpdErrs upd tl = logs + (1 + countUpdErrs upd tl) := by
        omega
      rw [harith]
    | ok u =>
      rw [ih htl logs]
      have harith : logs + countUpdErrs upd tl = logs + (0 + countUpdErrs upd tl) := by
        omega
      rw [harith]

/-- The per-sensor loop of a tick succeeds, building the snapshot of the
successful reads and counting every logged failure, when every fan reference
fits in a `u8`. -/
theorem tickGo_ok (fansFor : String → List FanRef) (upd : ℕ → ℕ → Except String Unit)
    (hsmall : ∀ s f, f ∈ fansFor s → f.1 < 256 ∧ f.2 < 256) :
    ∀ (sensors : List (String × Except String ℚ)) (snap : List (String × ℚ))
      (logs : ℕ),
      tickGo fansFor upd sensors snap logs =
        .ok (okReadsFrom snap sensors, logs + tickLogCount fansFor upd sensors) := by
  intro sensors
  induction sensors with
  | nil =>
    intro snap logs
    simp [tickGo, okReadsFrom, tickLogCount]
  | cons hd tl ih =>
    obtain ⟨key, r⟩ := hd
    intro snap logs
    cases r with
    | error e =>
      simp only [tickGo, okReadsFrom, tickLogCount]
      rw [ih snap (logs + 1)]
      have harith : logs + 1 + tickLogCount fansFor upd tl =
          logs + (tickLogCount fansFor upd tl + 1) := by omega
      rw [harith]
    | ok temp =>
      simp only [tickGo, okReadsFrom, tickLogCount]
      rw [updateFansGo_ok upd (fansFor key) (fun f hf => hsmall key f hf) logs]
      simp only
      rw [ih (insertSample snap key temp) (logs + countUpdErrs upd (fansFor key))]
      have harith : logs + countUpdErrs upd (fansFor key) + tickLogCount fansFor upd tl =
          logs + (countUpdErrs upd (fansFor key) + tickLogCount fansFor upd tl) := by
        omega
      rw [harith]

/-- C7 counterexample: a hot-path error can abort the tick after all — with a
mapped fan reference `(300, 1)` whose controller id does not fit in a `u8`,
the `u8::try_from(..)?` conversion returns early: the tick's result is an
error, the sample cache is not replaced, and no `TemperatureChanged` is
published, even though the sensor read succeeded. -/
theorem tick_abort_on_large_ref :
    collectAndProcessTemperatures [("cpu", .ok 65)] (fun _ => [(300, 1)])
      (fun _ _ => .ok ()) =
      { result := .error "Controller ID too large for u8", cache := none,
        published := none, logs := 0 } := rfl

/-- C7 (amended): within one monitoring tick, every failed per-sensor
temperature read and every failed per-channel controller update is logged and
skipped, and — provided every mapped fan reference fits in a `u8` — the tick
completes: its result is `Ok`, it replaces the sample cache with the snapshot
of the successful reads, and it publishes `TemperatureChanged` with that same
snapshot; the log count is exactly one per failed read plus one per failed
channel update.  (A fan reference outside `u8` range instead aborts the tick
via the `u8::try_from(..)?` conversions.) -/
theorem tick_error_handling (sensors : List (String × Except String ℚ))
    (fansFor : String → List FanRef) (upd : ℕ → ℕ → Except String Unit)
    (hsmall : ∀ s f, f ∈ fansFor s → f.1 < 256 ∧ f.2 < 256) :
    collectAndProcessTemperatures sensors fansFor upd =
      { result := .ok (), cache := some (okReads sensors),
        published := some (okReads sensors),
        logs := tickLogCount fansFor upd sensors } := by
  rw [collectAndProcessTemperatures, tickGo_ok fansFor upd hsmall sensors [] 0]
  simp [okReads]

/-- C7 witness: a tick with one failing read and one failing channel update
still completes, caches and publishes the one good sample, and logs twice. -/
theorem tick_error_handling_witness :
    collectAndProcessTemperatures
      [("cpu", .ok 65), ("gpu", .error "read failed")]
      (fun _ => [(1, 1)]) (fun _ _ => .error "update failed") =
      { result := .ok (), cache := some [("cpu", 65)],
        published := some [("cpu", 65)], logs := 2 } := by
  have h := tick_error_handling [("cpu", .ok 65), ("gpu", .error "read failed")]
    (fun _ => [(1, 1)]) (fun _ _ => .error "update failed")
    (fun s f hf => by
      have hf1 : f = (1, 1) := List.mem_singleton.mp hf
      rw [hf1]
      exact ⟨by norm_num, by norm_num⟩)
  exact h.trans (by rfl)

/-! ## C2 — step curve evaluation -/

/-- The window scan of the source equals the specification's
first-containing-interval rule whenever the two vectors have equal length. -/
theorem step_refines :
    ∀ (temps : List ℚ) (speeds : List ℕ) (temp : ℚ),
      temps.length = speeds.length →
      stepCompute temps speeds temp = specStepCompute temps speeds temp := by
  intro temps
  induction temps with
  | nil =>
    intro speeds temp _
    rfl
  | cons t0 rest ih =>
    cases rest with
    | nil =>
      intro speeds temp _
      rfl
    | cons t1 ts =>
      intro speeds temp h
      cases speeds with
      | nil => simp at h
      | cons s0 stail =>
        cases stail with
        | nil => simp at h
        | cons s1 ss =>
          simp only [stepCompute, specStepCompute, specFirstIdx]
          have hlen2 : (t0 :: t1 :: ts).length - 1 = ts.length + 1 := by simp
          rw [hlen2, List.range_succ_eq_map]
          by_cases hc : t0 ≤ temp ∧ temp ≤ t1
          · rw [if_pos hc, List.find?_cons_of_pos _ (by simpa using hc)]
            rfl
          · rw [if_neg hc, List.find?_cons_of_neg _ (by simpa using hc)]
            rw [List.find?_map, Option.map_map]
            have htail := ih (s1 :: ss) temp (by simpa using h)
            rw [htail]
            simp only [specStepCompute, specFirstIdx]
            have hlen3 : (t1 :: ts).length - 1 = ts.length := by simp
            rw [hlen3]
            rfl

/-- The four Scenario A evaluations of the step curve `[30, 50, 70]` /
`[20, 60, 100]`. -/
theorem step_concrete_evals :
    stepCompute [30, 50, 70] [20, 60, 100] 40 = some 40 ∧
    stepCompute [30, 50, 70] [20, 60, 100] 50 = some 60 ∧
    stepCompute [30, 50, 70] [20, 60, 100] 60 = some 80 ∧
    stepCompute [30, 50, 70] [20, 60, 100] (299/10) = none := by
  have h40 : ⌊(40 : ℚ) + 1/2⌋ = 40 := by
    rw [Int.floor_eq_iff]
    norm_num
  have h60 : ⌊(60 : ℚ) + 1/2⌋ = 60 := by
    rw [Int.floor_eq_iff]
    norm_num
  have h80 : ⌊(80 : ℚ) + 1/2⌋ = 80 := by
    rw [Int.floor_eq_iff]
    norm_num
  refine ⟨?_, ?_, ?_, ?_⟩
  · norm_num [stepCompute, interpSpeed, roundHalfAway, clampCastU8, h40]
    decide
  · norm_num [stepCompute, interpSpeed, roundHalfAway, clampCastU8, h60]
    decide
  · norm_num [stepCompute, interpSpeed, roundHalfAway, clampCastU8, h80]
    decide
  · norm_num [stepCompute]

/-- C2: on a fan whose active curve is a step curve with as many speeds as
temperatures, `compute_speed` returns the linear interpolation — rounded
half-away-from-zero and clamped to `0..=100` — over the first interval
`[tmps[i], tmps[i+1]]` containing `temp`, and fails with the temperature-range
error exactly when no interval contains it; in particular Scenario A:
`tmps [30, 50, 70]`, `spds [20, 60, 100]` give duty 40 at 40 °C, 60 at 50 °C,
80 at 60 °C, and an error at 29.9 °C.  (`f32` arithmetic is modelled by exact
rational arithmetic.) -/
theorem step_curve_spec (temps : List ℚ) (speeds : List ℕ) (temp : ℚ)
    (hlen : temps.length = speeds.length) (fan : Fan)
    (hlook : lookupCurve fan.curve fan.active_curve =
      some (FanCurve.StepCurve temps speeds)) :
    (fan.compute_speed temp =
      match specStepCompute temps speeds temp with
      | some duty => .ok duty
      | none => .error "Temperature not found in curve") ∧
    (fan.compute_speed temp = .error "Temperature not found in curve" ↔
      ∀ i, i + 1 < temps.length →
        ¬(temps.getD i 0 ≤ temp ∧ temp ≤ temps.getD (i + 1) 0)) ∧
    stepFan.compute_speed 40 = .ok 40 ∧
    stepFan.compute_speed 50 = .ok 60 ∧
    stepFan.compute_speed 60 = .ok 80 ∧
    stepFan.compute_speed (299/10) = .error "Temperature not found in curve" := by
  have hrefine := step_refines temps speeds temp hlen
  have hnone : stepCompute temps speeds temp = none ↔
      ∀ i, i + 1 < temps.length →
        ¬(temps.getD i 0 ≤ temp ∧ temp ≤ temps.getD (i + 1) 0) := by
    rw [hrefine]
    simp only [specStepCompute, Option.map_eq_none', specFirstIdx,
      List.find?_eq_none, List.mem_range, decide_eq_true_eq]
    constructor
    · intro h i hi
      exact h i (by omega)
    · intro h i hi
      exact h i (by omega)
  have hlookS : lookupCurve stepFan.curve stepFan.active_curve =
      some (FanCurve.StepCurve [30, 50, 70] [20, 60, 100]) := rfl
  obtain ⟨e40, e50, e60, e299⟩ := step_concrete_evals
  refine ⟨?_, ?_, ?_, ?_, ?_, ?_⟩
  · rw [← hrefine]
    simp [Fan.compute_speed, hlook]
  · simp only [Fan.compute_speed, hlook]
    cases hs : stepCompute temps speeds temp with
    | some d =>
      simp only [hs]
      constructor
      · intro h
        exact absurd h (by simp)
      · intro hiv
        have hcontra := hnone.mpr hiv
        rw [hs] at hcontra
        exact absurd hcontra (by simp)
    | none =>
      simp only [hs]
      constructor
      · intro _
        exact hnone.mp hs
      · intro _
        trivial
  · simp [Fan.compute_speed, hlookS, e40]
  · simp [Fan.compute_speed, hlookS, e50]
  · simp [Fan.compute_speed, hlookS, e60]
  · simp [Fan.compute_speed, hlookS, e299]

/-- C2 witness: the general statement applied to the concrete Scenario A
fan at 40 °C. -/
theorem step_curve_spec_witness :
    (stepFan.compute_speed 40 =
      match specStepCompute [30, 50, 70] [20, 60, 100] 40 with
      | some duty => .ok duty
      | none => .error "Temperature not found in curve") ∧
    stepFan.compute_speed 40 = .ok 40 := by
  have h := step_curve_spec [30, 50, 70] [20, 60, 100] 40 (by norm_num) stepFan rfl
  exact ⟨h.1, h.2.2.1⟩

/-! ## C3 — Bezier evaluation -/

/-- The binary search executes at most as many iterations as its fuel. -/
theorem bezierGo_iter_le (pts : List (ℚ × ℚ)) (temp : ℚ) :
    ∀ (n : ℕ) (a b c : ℚ), (bezierGo pts temp n a b c).2 ≤ n := by
  intro n
  induction n with
  | zero =>
    intro a b c
    simp [bezierGo]
  | succ n ih =>
    intro a b c
    simp only [bezierGo]
    split
    · exact Nat.succ_le_succ (Nat.zero_le n)
    · split
      · exact Nat.succ_le_succ (ih _ _ _)
      · exact Nat.succ_le_succ (ih _ _ _)

/-- On the constant-height control polygon the very first midpoint hits
`x = 3/2` exactly, so the search returns `y = 200` after one iteration. -/
theorem bezierGo_flat (n : ℕ) :
    bezierGo flatBez (3/2) (n + 1) 0 1 0 = (200, 1) := by
  simp only [bezierGo]
  norm_num [computeBezierAtT, flatBez]

/-- C3 counterexample: the Bezier result is not clamped to `0..=100` — with
the four strictly-ascending-x control points of `flatBez` (every `y` equal to
200) the evaluator returns duty 200, outside `[0, 100]` (the `as u8` cast
saturates at 255, not at 100). -/
theorem bezier_result_not_clamped :
    bezFlatFan.compute_speed (3/2) = .ok 200 ∧ ¬ (200 : ℕ) ≤ 100 := by
  constructor
  · have hg : getSpeedForTemp flatBez (3/2) = (200, 1) := bezierGo_flat 99
    have hlook : lookupCurve bezFlatFan.curve bezFlatFan.active_curve =
        some (FanCurve.BezierCurve flatBez) := rfl
    have hfl : ⌊(200 : ℚ)⌋ = 200 := by
      rw [Int.floor_eq_iff]
      norm_num
    have hf : f32AsU8 200 = 200 := by
      norm_num [f32AsU8, hfl]
      decide
    have hlen4 : flatBez.length = 4 := rfl
    simp [Fan.compute_speed, hlook, hlen4, hg, hf]
  · decide

/-- C3 (amended): on a fan whose active curve is a Bezier curve with exactly
four control points (with strictly ascending `x`), `compute_speed` terminates
within 100 binary-search iterations and returns the search's `y` value cast to
`u8` with saturation — so the result lies in `[0, 255]`, with no clamp to
`0..=100`; with any other number of points it fails with the
four-points error. -/
theorem bezier_spec (pts : List (ℚ × ℚ)) (temp : ℚ) (fan : Fan)
    (_hasc : StrictAscX pts)
    (hlook : lookupCurve fan.curve fan.active_curve =
      some (FanCurve.BezierCurve pts)) :
    (pts.length = 4 →
      fan.compute_speed temp = .ok (f32AsU8 (getSpeedForTemp pts temp).1) ∧
      (getSpeedForTemp pts temp).2 ≤ 100 ∧
      f32AsU8 (getSpeedForTemp pts temp).1 ≤ 255) ∧
    (pts.length ≠ 4 →
      fan.compute_speed temp = .error "Bezier curve must have 4 points") := by
  constructor
  · intro h4
    refine ⟨?_, bezierGo_iter_le pts temp 100 0 1 0, min_le_left _ _⟩
    simp [Fan.compute_speed, hlook, h4]
  · intro h4
    simp [Fan.compute_speed, hlook, h4]

/-- C3 witness: the amended statement on the default Bezier curve of the
driver at 50 °C. -/
theorem bezier_spec_witness :
    bezDefaultFan.compute_speed 50 =
      .ok (f32AsU8 (getSpeedForTemp defaultBez 50).1) ∧
    (getSpeedForTemp defaultBez 50).2 ≤ 100 ∧
    f32AsU8 (getSpeedForTemp defaultBez 50).1 ≤ 255 := by
  exact (bezier_spec defaultBez 50 bezDefaultFan
    (by norm_num [StrictAscX, defaultBez, List.pairwise_cons]) rfl).1 rfl

/-! ## C4 — protocol round-trip -/

/-- Recombining a high byte shifted left by 8 with a low byte below 256 by
bitwise or is plain positional arithmetic. -/
theorem lor_shiftLeft_eq (a b : ℕ) (hb : b < 256) : a <<< 8 ||| b = 2 ^ 8 * a + b := by
  have hb2 : b < 2 ^ 8 := by norm_num at hb ⊢; omega
  apply Nat.eq_of_testBit_eq
  intro j
  rw [Nat.testBit_or, Nat.testBit_shiftLeft, Nat.testBit_mul_pow_two_add a hb2 j]
  by_cases hj : j < 8
  · rw [if_pos hj]
    have hd : decide (j ≥ 8) = false := by
      simp
      omega
    rw [hd]
    simp
  · rw [if_neg hj]
    have hd : decide (j ≥ 8) = true := by
      simp
      omega
    rw [hd]
    have hbj : b.testBit j = false :=
      Nat.testBit_eq_false_of_lt
        (lt_of_lt_of_le hb2 (Nat.pow_le_pow_right (by norm_num) (by omega)))
    rw [hbj]
    simp

set_option maxRecDepth 8000 in
/-- C4: `to_bytes` encodes `SetSpeed{port: 2, speed: 123}` as
`[0x00, 0x32, 0x51, 0x02, 0x01, 0x7B]`; for every command, parsing the
193-byte buffer a correct device would send yields the semantically equivalent
response; for `SetSpeed` a buffer with `buf[2] = 0xFC` parses to
`Status(0xFC)`; and for `GetData` the parsed speed is `buf[2]` and the rpm is
`(buf[4] as u16) << 8 | buf[3] as u16`. -/
theorem protocol_roundtrip (cmd : Command) (resp : Response)
    (hmatch : respMatches cmd resp) (hwf : respWf resp) :
    Command.to_bytes (.setSpeed 2 123) = [0x00, 0x32, 0x51, 0x02, 0x01, 0x7B] ∧
    Response.parse cmd (deviceBuffer resp) = .ok resp ∧
    (∀ port speed (buf : List ℕ), buf.length = 193 → buf.getD 2 0 = 0xFC →
      Response.parse (.setSpeed port speed) buf = .ok (.status 0xFC)) ∧
    (∀ port (buf : List ℕ), buf.length = 193 →
      Response.parse (.getData port) buf =
        .ok (.data (buf.getD 2 0) ((buf.getD 4 0) <<< 8 ||| buf.getD 3 0))) := by
  refine ⟨rfl, ?_, ?_, ?_⟩
  · cases cmd <;> cases resp <;> simp only [respMatches] at hmatch <;> try rfl
    case getData.data port speed rpm =>
      have hwf2 : rpm < 65536 := hwf
      have hparse : Response.parse (.getData port) (deviceBuffer (.data speed rpm)) =
          .ok (.data speed ((rpm / 256) <<< 8 ||| rpm % 256)) := rfl
      rw [hparse, lor_shiftLeft_eq _ _ (Nat.mod_lt _ (by norm_num))]
      have hdm : 2 ^ 8 * (rpm / 256) + rpm % 256 = rpm := by
        have := Nat.div_add_mod rpm 256
        omega
      rw [hdm]
  · intro port speed buf hlen h2
    cases hx : buf[2]? with
    | none =>
      have := List.getElem?_eq_none_iff.mp hx
      omega
    | some v =>
      have hgd : buf.getD 2 0 = v := by
        rw [List.getD_eq_getElem?_getD, hx]
        rfl
      have hv : v = 0xFC := by
        rw [← hgd]
        exact h2
      simp [Response.parse, List.get?_eq_getElem?, hx, hv]
  · intro port buf hlen
    simp [Response.parse, hlen]

/-- C4 witness: the round trip at `SetSpeed{2, 123}` with status `0xFC` and at
`GetData` with speed 55 and rpm `0x2010`. -/
theorem protocol_roundtrip_witness :
    Command.to_bytes (.setSpeed 2 123) = [0x00, 0x32, 0x51, 0x02, 0x01, 0x7B] ∧
    Response.parse (.setSpeed 2 123) (deviceBuffer (.status 0xFC)) =
      .ok (.status 0xFC) ∧
    Response.parse (.getData 1) (deviceBuffer (.data 55 8208)) =
      .ok (.data 55 8208) := by
  have h1 := protocol_roundtrip (.setSpeed 2 123) (.status 0xFC) trivial trivial
  have h2 := protocol_roundtrip (.getData 1) (.data 55 8208) trivial
    (show (8208 : ℕ) < 65536 by norm_num)
  exact ⟨h1.1, h1.2.1, h2.2.1⟩

/-! ## C8 — configuration change classifier -/

/-- C8: the classifier returns `ColdRestart` naming `"controllers"` and/or
`"sensors"` exactly when those sections differ by value equality over the
structural representation, returns `HotReload` otherwise, and two equal
configurations always classify as `HotReload`.  (As a Lean function of the two
configurations it is total, deterministic and side-effect free by
construction.) -/
theorem analyze_config_changes_spec (old new : Config) :
    (analyzeConfigChanges old new = .HotReload ↔
      old.controllers = new.controllers ∧ old.sensors = new.sensors) ∧
    (∀ secs, analyzeConfigChanges old new = .ColdRestart secs →
      (("controllers" ∈ secs ↔ old.controllers ≠ new.controllers) ∧
       ("sensors" ∈ secs ↔ old.sensors ≠ new.sensors))) ∧
    analyzeConfigChanges old old = .HotReload := by
  refine ⟨?_, ?_, by simp [analyzeConfigChanges]⟩
  · by_cases h1 : old.controllers = new.controllers <;>
      by_cases h2 : old.sensors = new.sensors <;>
      simp [analyzeConfigChanges, h1, h2]
  · intro secs hsecs
    by_cases h1 : old.controllers = new.controllers <;>
      by_cases h2 : old.sensors = new.sensors <;>
      simp [analyzeConfigChanges, h1, h2] at hsecs <;>
      rw [← hsecs] <;> simp [h1, h2]

/-- C8 witness: changing only a sensor's feature yields
`ColdRestart ["sensors"]`, equal configurations and a pure tick-period change
yield `HotReload`. -/
theorem analyze_config_changes_witness :
    analyzeConfigChanges cfgA cfgB = .ColdRestart ["sensors"] ∧
    ("sensors" ∈ ["sensors"] ↔ cfgA.sensors ≠ cfgB.sensors) ∧
    analyzeConfigChanges cfgA cfgA = .HotReload ∧
    analyzeConfigChanges cfgA cfgC = .HotReload := by
  have hAB : analyzeConfigChanges cfgA cfgB = .ColdRestart ["sensors"] := by
    simp [analyzeConfigChanges, cfgA, cfgB]
  refine ⟨hAB, ((analyze_config_changes_spec cfgA cfgB).2.1 ["sensors"] hAB).2,
    (analyze_config_changes_spec cfgA cfgA).2.2, ?_⟩
  exact (analyze_config_changes_spec cfgA cfgC).1.mpr ⟨rfl, rfl⟩

end TtRiingd
